import Mathlib

/-!
A shallow embedding of the `mdb` package (file `mdb/mdb.go`) of the
mailing-list microservice: a SQLite-backed subscriber registry with one table
`emails(id INTEGER PRIMARY KEY, email TEXT UNIQUE, confirmed_at INTEGER,
opt_out INTEGER)`.

The database state is modelled as a list of well-typed rows (`Store`); each Go
function becomes a Lean function from the store to the new store together with
its outcome.  The effect of every SQL statement the code issues is translated
into list operations following SQLite semantics; the doc comment of each
definition quotes the statement it embeds.  Go's `*time.Time` is modelled as
`Option GoTime` (`none` is the nil pointer); Go `int`/`int64` become `Int`.
-/

/-- A Go `time.Time` restricted to what the code uses: Unix seconds plus a
sub-second nanosecond part.  `time.Unix(sec, 0)` builds `⟨sec, 0⟩`; the method
`Unix()` returns the seconds, discarding the nanoseconds. -/
structure GoTime where
  sec : Int
  nsec : Int
  deriving DecidableEq, Repr

/-- Go `entry.ConfirmedAt.Unix()`: seconds since the epoch, truncated. -/
def GoTime.unix (t : GoTime) : Int := t.sec

/-- Go `time.Unix(sec, 0)`: the whole-second instant `sec` seconds after the
epoch. -/
def timeUnix (sec : Int) : GoTime := ⟨sec, 0⟩

/-- One row of the `emails` table, with the schema's column types:
`id INTEGER PRIMARY KEY` (unique, store-assigned), `email TEXT UNIQUE`,
`confirmed_at INTEGER` (epoch seconds), `opt_out INTEGER` (0/1, modelled as
`Bool` — the Go driver binds `bool` as the integers 0/1). -/
structure Row where
  id : Int
  email : String
  confirmed_at : Int
  opt_out : Bool
  deriving DecidableEq, Repr

/-- The `emails` table: its rows in storage order. -/
abbrev Store := List Row

/-- The UNIQUE constraint on the `email` column: distinct rows carry distinct
emails. -/
def emailsUnique (s : Store) : Prop :=
  s.Pairwise (fun a b => a.email ≠ b.email)

/-- Go struct `EmailEntry`: `Id int64`, `Email string`,
`ConfirmedAt *time.Time` (a pointer — `none` models nil), `OptOut bool`. -/
structure EmailEntry where
  Id : Int
  Email : String
  ConfirmedAt : Option GoTime
  OptOut : Bool
  deriving DecidableEq, Repr

/-- `emailEntryFromRow`: scans a row in column order `id, email, confirmed_at,
opt_out` and converts the stored integer via `t := time.Unix(confirmedAt, 0)`,
returning an entry whose `ConfirmedAt` is `&t` — always a non-nil pointer.  On
a well-typed row (the only rows the modelled store holds) the scan cannot
fail. -/
def emailEntryFromRow (r : Row) : EmailEntry :=
  { Id := r.id
    Email := r.email
    ConfirmedAt := some (timeUnix r.confirmed_at)
    OptOut := r.opt_out }

/-- An error returned by a `database/sql` call: either a `sqlite3.Error`
carrying its primary result `Code`, or some other (non-sqlite) error. -/
inductive DBError where
  | sqlite (code : Int)
  | nonSqlite
  deriving DecidableEq, Repr

/-- The error SQLite reports when `CREATE TABLE emails` finds the table
already present: "table emails already exists", primary result code
SQLITE_ERROR = 1 (the code the source compares against).  For this fixed,
well-formed statement it is the only code-1 outcome. -/
def alreadyExistsError : DBError := DBError.sqlite 1

/-- How a call to `TryCreate` ends: a normal return, or process abort via
`log.Fatal`. -/
inductive TryCreateOutcome where
  | returned
  | fatal
  deriving DecidableEq, Repr

/-- The error handling of `TryCreate` applied to the outcome `err` of
`db.Exec("CREATE TABLE emails (...)")`: no error returns normally; a
`sqlite3.Error` whose `Code != 1` calls `log.Fatal`, a code-1 error is
swallowed; an error that is not a `sqlite3.Error` also calls `log.Fatal`. -/
def tryCreateHandle (err : Option DBError) : TryCreateOutcome :=
  match err with
  | none => TryCreateOutcome.returned
  | some (DBError.sqlite c) =>
      if c ≠ 1 then TryCreateOutcome.fatal else TryCreateOutcome.returned
  | some DBError.nonSqlite => TryCreateOutcome.fatal

/-- `db.Exec("CREATE TABLE emails (...)")` on a database where the table does
or does not yet exist: creating it when absent succeeds, re-creating it yields
the "table emails already exists" error and leaves the schema unchanged. -/
def execCreateTable (tableExists : Bool) : Bool × Option DBError :=
  if tableExists then (true, some alreadyExistsError) else (true, none)

/-- `TryCreate`: issues the CREATE TABLE statement and handles its error as in
the source, returning the new schema state and whether the call returned or
aborted. -/
def TryCreate (tableExists : Bool) : Bool × TryCreateOutcome :=
  let res := execCreateTable tableExists
  (res.1, tryCreateHandle res.2)

/-- `CreateEmail`: issues
`INSERT INTO emails(email, confirmed_at, opt_out) VALUES ((?, 0, false));`.
The doubled parentheses make the VALUES row consist of one single expression,
the row-value `(?, 0, false)`, supplied for the three named columns; SQLite
rejects this while preparing the statement ("1 values for 3 columns", primary
result code SQLITE_ERROR = 1).  `db.Exec` therefore fails on every call, the
function returns that error, and no row is ever inserted. -/
def CreateEmail (s : Store) (email : String) : Store × Option DBError :=
  (s, some (DBError.sqlite 1))

/-- `GetEmail`: issues `SELECT * FROM emails WHERE email = ?;`, then maps the
first returned row through `emailEntryFromRow`, or returns `(nil, nil)` when
the result set is empty. -/
def GetEmail (s : Store) (email : String) : Option EmailEntry × Option DBError :=
  match s.filter (fun r => r.email == email) with
  | [] => (none, none)
  | r :: _ => (some (emailEntryFromRow r), none)

/-- How a call to `UpdateEmail` ends: normal return with no error, an error
return, or a Go runtime panic (nil-pointer dereference). -/
inductive ExecOutcome where
  | ok
  | err (e : DBError)
  | panicked
  deriving DecidableEq, Repr

/-- The rowid SQLite assigns to a fresh row of a table whose `id` is an
`INTEGER PRIMARY KEY` alias for the rowid: one more than the largest rowid in
use (1 for an empty table; ids are positive in this model). -/
def nextId (s : Store) : Int :=
  (s.foldl (fun m r => max m r.id) 0) + 1

/-- `UpdateEmail`: first evaluates `t := entry.ConfirmedAt.Unix()` — a nil
`ConfirmedAt` panics here, before any statement is issued — then executes
`INSERT INTO emails(email, confirmed_at, opt_out) VALUES (?, ?, ?)
 ON CONFLICT(email) DO UPDATE SET confirmed_at = ?, opt_out = ?;`
bound to `(entry.Email, t, entry.OptOut, t, entry.OptOut)`: if no row carries
`entry.Email` a new row is inserted with a fresh id, otherwise the conflicting
row (unique when the UNIQUE constraint holds; the model updates every match)
gets `confirmed_at = t, opt_out = entry.OptOut`, its id and email kept. -/
def UpdateEmail (s : Store) (entry : EmailEntry) : Store × ExecOutcome :=
  match entry.ConfirmedAt with
  | none => (s, ExecOutcome.panicked)
  | some ct =>
      let t := ct.unix
      if s.any (fun r => r.email == entry.Email) then
        (s.map (fun r =>
          if r.email == entry.Email then
            { r with confirmed_at := t, opt_out := entry.OptOut }
          else r), ExecOutcome.ok)
      else
        (s ++ [{ id := nextId s, email := entry.Email,
                 confirmed_at := t, opt_out := entry.OptOut }], ExecOutcome.ok)

/-- `DeleteEmail`: issues `UPDATE emails SET opt_out = true WHERE email = ?;`
— every matching row gets `opt_out = true`, non-matching rows are untouched,
and a statement matching zero rows is still a success. -/
def DeleteEmail (s : Store) (email : String) : Store × Option DBError :=
  (s.map (fun r =>
    if r.email == email then { r with opt_out := true } else r), none)

/-- Go struct `GetEmailBatchQueryParams`: `Page int`, `Count int`. -/
structure GetEmailBatchQueryParams where
  Page : Int
  Count : Int
  deriving DecidableEq, Repr

/-- SQLite `LIMIT lim OFFSET off` applied to a result list: a negative OFFSET
behaves as 0, and a negative LIMIT means no upper bound on the number of
rows. -/
def sqlLimitOffset (rows : List Row) (lim off : Int) : List Row :=
  let dropped := rows.drop (max off 0).toNat
  if lim < 0 then dropped else dropped.take lim.toNat

/-- The result set of `SELECT * FROM emails WHERE opt_out = false ORDER BY id
ASC` before LIMIT/OFFSET: the rows with `opt_out = false`, sorted by ascending
id. -/
def activeSorted (s : Store) : List Row :=
  List.insertionSort (fun a b => a.id ≤ b.id)
    (s.filter (fun r => r.opt_out == false))

/-- `GetEmailBatch`: issues
`SELECT * FROM emails WHERE opt_out = false ORDER BY id ASC LIMIT ? OFFSET ?`
bound to `(params.Count, (params.Page-1)*params.Count)` and maps every
returned row through `emailEntryFromRow`.  No validation of `Page`/`Count` is
performed.  With well-typed rows no scan fails, so the error is always nil. -/
def GetEmailBatch (s : Store) (params : GetEmailBatchQueryParams) :
    List EmailEntry × Option DBError :=
  ((sqlLimitOffset (activeSorted s) params.Count
      ((params.Page - 1) * params.Count)).map emailEntryFromRow, none)

/-- A small concrete table used by the witnesses: three subscribers, the
second opted out. -/
def demoStore : Store :=
  [ { id := 1, email := "a@x.com", confirmed_at := 0, opt_out := false }
  , { id := 2, email := "b@x.com", confirmed_at := 100, opt_out := true }
  , { id := 3, email := "c@x.com", confirmed_at := 7, opt_out := false } ]

/-- A concrete entry whose email already has a row in `demoStore`. -/
def demoEntry : EmailEntry :=
  { Id := 0, Email := "a@x.com", ConfirmedAt := some ⟨50, 0⟩, OptOut := true }

/-- A concrete entry with a fresh email. -/
def entryNew : EmailEntry :=
  { Id := 0, Email := "new@x.com", ConfirmedAt := some ⟨1234, 0⟩, OptOut := false }

/-- A concrete entry whose `ConfirmedAt` pointer is nil. -/
def entryNil : EmailEntry :=
  { Id := 0, Email := "a@x.com", ConfirmedAt := none, OptOut := false }

instance : IsTotal Row (fun a b => a.id ≤ b.id) :=
  ⟨fun a b => le_total a.id b.id⟩

instance : IsTrans Row (fun a b => a.id ≤ b.id) :=
  ⟨fun _ _ _ h h2 => le_trans h h2⟩

lemma filter_email_map (s : Store) (f : Row → Row)
    (hf : ∀ r, (f r).email = r.email) (email : String) :
    (s.map f).filter (fun r => r.email == email) =
      (s.filter (fun r => r.email == email)).map f := by
  rw [List.filter_map]
  congr 1
  apply List.filter_congr
  intro x _
  simp [Function.comp, hf]

lemma filter_email_unique {s : Store} (hu : emailsUnique s) {r : Row}
    (hr : r ∈ s) {email : String} (he : r.email = email) :
    s.filter (fun x => x.email == email) = [r] := by
  induction s with
  | nil => cases hr
  | cons a t ih =>
      rcases List.pairwise_cons.mp hu with ⟨ha, ht⟩
      rcases List.mem_cons.mp hr with rfl | hrt
      · rw [List.filter_cons, if_pos (by simpa using he)]
        have : t.filter (fun x => x.email == email) = [] := by
          rw [List.filter_eq_nil_iff]
          intro x hx
          simp only [beq_iff_eq]
          intro hxe
          exact ha x hx (by rw [hxe, he])
        rw [this]
      · have hne : a.email ≠ email := by
          intro hae
          exact ha r hrt (by rw [hae, he])
        rw [List.filter_cons, if_neg (by simpa using hne)]
        exact ih ht hrt

/-- C1: the claim reads "for every fresh email address, Create inserts a new
row with `confirmedAt` the epoch sentinel and `optOut = false` and succeeds".
The code cannot: its INSERT statement wraps the VALUES row in an extra pair of
parentheses, `VALUES ((?, 0, false))`, so SQLite rejects one row-value for
three columns while preparing the statement and `CreateEmail` returns that
error (SQLITE_ERROR, code 1) with the table untouched — here evaluated on the
fresh address "a@x.com" against the empty table. -/
theorem createEmail_fresh_email_always_errors :
    CreateEmail [] "a@x.com" = ([], some (DBError.sqlite 1)) := rfl

/-- C9: `UpdateEmail` evaluates `entry.ConfirmedAt.Unix()` before issuing any
statement, so an entry whose `ConfirmedAt` pointer is nil makes it panic with
a nil-pointer dereference — no error return — and the store is unchanged. -/
theorem updateEmail_nil_confirmedAt_panics (s : Store) (entry : EmailEntry)
    (h : entry.ConfirmedAt = none) :
    UpdateEmail s entry = (s, ExecOutcome.panicked) := by
  simp [UpdateEmail, h]

/-- C9 witness: the panic at a concrete entry on the demo table. -/
theorem updateEmail_nil_confirmedAt_panics_witness :
    UpdateEmail demoStore entryNil = (demoStore, ExecOutcome.panicked) :=
  updateEmail_nil_confirmedAt_panics demoStore entryNil rfl

/-- C3: for an entry whose email already has a row (and a non-nil
`ConfirmedAt`), `UpdateEmail` takes the update path: it returns no error and
does not panic, creates no second row (same length), keeps every row's id and
email, and rewrites only `confirmed_at`/`opt_out` of the rows matching the
entry's email, leaving all other rows exactly as they were. -/
theorem updateEmail_update_path (s : Store) (entry : EmailEntry) (ct : GoTime)
    (hct : entry.ConfirmedAt = some ct)
    (hex : ∃ r ∈ s, r.email = entry.Email) :
    (UpdateEmail s entry).2 = ExecOutcome.ok ∧
    (UpdateEmail s entry).1.length = s.length ∧
    (UpdateEmail s entry).1.map Row.id = s.map Row.id ∧
    (UpdateEmail s entry).1.map Row.email = s.map Row.email ∧
    (∀ i : Nat, (UpdateEmail s entry).1[i]? = (s[i]?).map (fun r =>
      if r.email == entry.Email then
        { r with confirmed_at := ct.unix, opt_out := entry.OptOut }
      else r)) := by
  obtain ⟨r0, hr0, he0⟩ := hex
  have hany : s.any (fun r => r.email == entry.Email) = true :=
    List.any_eq_true.mpr ⟨r0, hr0, by simpa using he0⟩
  have hupd : UpdateEmail s entry =
      (s.map (fun r =>
        if r.email == entry.Email then
          { r with confirmed_at := ct.unix, opt_out := entry.OptOut }
        else r), ExecOutcome.ok) := by
    unfold UpdateEmail
    rw [hct]
    simp [hany]
  rw [hupd]
  refine ⟨rfl, List.length_map _ _, ?_, ?_, ?_⟩
  · rw [List.map_map]
    apply List.map_congr_left
    intro r _
    by_cases h : r.email == entry.Email <;> simp [Function.comp, h]
  · rw [List.map_map]
    apply List.map_congr_left
    intro r _
    by_cases h : r.email == entry.Email <;> simp [Function.comp, h]
  · intro i
    exact List.getElem?_map _ _ _

/-- C3 witness: upserting an entry for the pre-existing address "a@x.com"
into the demo table returns ok and leaves the row count unchanged. -/
theorem updateEmail_update_path_witness :
    (UpdateEmail demoStore demoEntry).2 = ExecOutcome.ok ∧
    (UpdateEmail demoStore demoEntry).1.length = demoStore.length := by
  have h := updateEmail_update_path demoStore demoEntry ⟨50, 0⟩ rfl
    ⟨{ id := 1, email := "a@x.com", confirmed_at := 0, opt_out := false },
      by decide, rfl⟩
  exact ⟨h.1, h.2.1⟩

/-- C4 counterexample: the claim says `GetEmailBatch` fails with a
ValidationError whenever count ≤ 0 or page ≤ 0; at the concrete input
page = 1, count = 0 the code performs no validation and returns the empty
batch with no error at all. -/
theorem getEmailBatch_count_zero_no_error :
    (0:Int) ≤ 0 ∧ GetEmailBatch demoStore ⟨1, 0⟩ = ([], none) := by
  exact ⟨le_refl 0, by decide⟩

/-- C4 amended: `GetEmailBatch` does not validate its parameters: for
count ≤ 0 or page ≤ 0 it returns no error (there is no ValidationError in the
code), passing LIMIT/OFFSET straight to SQLite; in particular count = 0
yields the empty batch. -/
theorem getEmailBatch_no_validation (s : Store) (page count : Int)
    (h : count ≤ 0 ∨ page ≤ 0) :
    (GetEmailBatch s ⟨page, count⟩).2 = none ∧
    (count = 0 → (GetEmailBatch s ⟨page, count⟩).1 = []) := by
  refine ⟨rfl, ?_⟩
  rintro rfl
  simp [GetEmailBatch, sqlLimitOffset]

/-- C4 witness: the amended claim applied at page = 1, count = 0 on the demo
table. -/
theorem getEmailBatch_no_validation_witness :
    (0:Int) ≤ 0 ∧ (GetEmailBatch demoStore ⟨1, 0⟩).2 = none ∧
    (GetEmailBatch demoStore ⟨1, 0⟩).1 = [] := by
  have h := getEmailBatch_no_validation demoStore 1 0 (Or.inl (le_refl 0))
  exact ⟨le_refl 0, h.1, h.2 rfl⟩

/-- C5: `DeleteEmail` always succeeds (no error, also when nothing matches),
removes no row (same length), rewrites each matching row to `opt_out = true`
leaving every other row untouched, is the identity when no row matches, and
afterwards `GetEmail` still returns the matching row — same id and email —
with `OptOut = true`. -/
theorem deleteEmail_soft (s : Store) (email : String) :
    (DeleteEmail s email).2 = none ∧
    (DeleteEmail s email).1.length = s.length ∧
    (∀ i : Nat, (DeleteEmail s email).1[i]? = (s[i]?).map (fun r =>
      if r.email == email then { r with opt_out := true } else r)) ∧
    ((∀ r ∈ s, r.email ≠ email) → (DeleteEmail s email).1 = s) ∧
    (∀ r ∈ s, emailsUnique s → r.email = email →
      GetEmail (DeleteEmail s email).1 email =
        (some { Id := r.id, Email := r.email,
                ConfirmedAt := some (timeUnix r.confirmed_at),
                OptOut := true }, none)) := by
  refine ⟨rfl, List.length_map _ _, fun i => List.getElem?_map _ _ _, ?_, ?_⟩
  · intro hnone
    have hid : ∀ r ∈ s,
        (if r.email == email then { r with opt_out := true } else r) = r := by
      intro r hr
      rw [if_neg (by simpa using hnone r hr)]
    have h2 : s.map (fun r =>
        if r.email == email then { r with opt_out := true } else r)
          = s.map (fun r => r) := List.map_congr_left hid
    simpa [DeleteEmail] using h2
  · intro r hr hu he
    have hf : ∀ x : Row,
        ((fun x => if x.email == email then { x with opt_out := true } else x)
          x).email = x.email := by
      intro x
      by_cases h : x.email == email <;> simp [h]
    show GetEmail (s.map (fun x =>
      if x.email == email then { x with opt_out := true } else x)) email = _
    unfold GetEmail
    rw [filter_email_map s _ hf email, filter_email_unique hu hr he]
    simp [emailEntryFromRow, he]

/-- C5 witness: soft-deleting "a@x.com" from the demo table, then reading it
back, yields the same row with `OptOut = true`. -/
theorem deleteEmail_soft_witness :
    GetEmail (DeleteEmail demoStore "a@x.com").1 "a@x.com" =
      (some { Id := 1, Email := "a@x.com", ConfirmedAt := some (timeUnix 0),
              OptOut := true }, none) :=
  (deleteEmail_soft demoStore "a@x.com").2.2.2.2
    { id := 1, email := "a@x.com", confirmed_at := 0, opt_out := false }
    (by decide) (by unfold emailsUnique; decide) rfl

/-- C6: `TryCreate` returns normally exactly when the CREATE TABLE statement
succeeded or failed with the "table emails already exists" error (a
`sqlite3.Error` with code 1), and aborts fatally on every other store error;
consequently a first call on a fresh database and a second call after it are
both non-fatal no-ops. -/
theorem tryCreate_discriminates :
    (∀ err : Option DBError,
      tryCreateHandle err = TryCreateOutcome.returned ↔
        err = none ∨ err = some alreadyExistsError) ∧
    TryCreate false = (true, TryCreateOutcome.returned) ∧
    TryCreate true = (true, TryCreateOutcome.returned) := by
  refine ⟨?_, by decide, by decide⟩
  intro err
  match err with
  | none => simp [tryCreateHandle]
  | some (DBError.sqlite c) =>
      by_cases h : c = 1
      · subst h
        simp [tryCreateHandle, alreadyExistsError]
      · simp [tryCreateHandle, h, alreadyExistsError]
  | some DBError.nonSqlite => simp [tryCreateHandle, alreadyExistsError]

/-- C6 witness: the "table emails already exists" error itself is swallowed. -/
theorem tryCreate_discriminates_witness :
    tryCreateHandle (some alreadyExistsError) = TryCreateOutcome.returned :=
  (tryCreate_discriminates.1 (some alreadyExistsError)).mpr (Or.inr rfl)

/-- C7: `GetEmail` returns `(absent, no error)` when no row carries the email,
and — under the uniqueness constraint — the one matching row, mapped through
`emailEntryFromRow`, when one does. -/
theorem getEmail_absent_and_unique (s : Store) (email : String) :
    ((∀ r ∈ s, r.email ≠ email) → GetEmail s email = (none, none)) ∧
    (∀ r ∈ s, emailsUnique s → r.email = email →
      GetEmail s email = (some (emailEntryFromRow r), none)) := by
  constructor
  · intro hnone
    have hfil : s.filter (fun r => r.email == email) = [] :=
      List.filter_eq_nil_iff.mpr (fun r hr => by simpa using hnone r hr)
    unfold GetEmail
    rw [hfil]
  · intro r hr hu he
    unfold GetEmail
    rw [filter_email_unique hu hr he]

/-- C7 witness: on the demo table, a lookup of an unknown address is absent
without error, and "b@x.com" returns its single row. -/
theorem getEmail_absent_and_unique_witness :
    GetEmail demoStore "z@x.com" = (none, none) ∧
    GetEmail demoStore "b@x.com" = (some (emailEntryFromRow
      { id := 2, email := "b@x.com", confirmed_at := 100, opt_out := true }),
      none) := by
  constructor
  · exact (getEmail_absent_and_unique demoStore "z@x.com").1 (by decide)
  · exact (getEmail_absent_and_unique demoStore "b@x.com").2
      { id := 2, email := "b@x.com", confirmed_at := 100, opt_out := true }
      (by decide) (by unfold emailsUnique; decide) rfl

/-- C8: upserting an entry whose `ConfirmedAt` is a whole-second instant
(nanoseconds 0) and reading the same email back yields an entry whose
`ConfirmedAt` equals that instant: `Unix()` on write and `time.Unix(_, 0)` on
read round-trip exactly, on both the insert and the update path. -/
theorem upsert_get_roundtrip (s : Store) (entry : EmailEntry) (ct : GoTime)
    (hct : entry.ConfirmedAt = some ct) (hsec : ct.nsec = 0) :
    ∃ e : EmailEntry,
      GetEmail (UpdateEmail s entry).1 entry.Email = (some e, none) ∧
      e.ConfirmedAt = some ct := by
  have hct2 : timeUnix ct.unix = ct := by
    cases ct with
    | mk sec nsec =>
        have h0 : nsec = 0 := hsec
        subst h0
        rfl
  cases hany : s.any (fun r => r.email == entry.Email) with
  | false =>
      have hfil : s.filter (fun r => r.email == entry.Email) = [] :=
        List.filter_eq_nil_iff.mpr (fun r hr => List.any_eq_false.mp hany r hr)
      have hs' : (UpdateEmail s entry).1 =
          s ++ [{ id := nextId s, email := entry.Email,
                  confirmed_at := ct.unix, opt_out := entry.OptOut }] := by
        unfold UpdateEmail
        rw [hct]
        simp [hany]
      refine ⟨emailEntryFromRow { id := nextId s, email := entry.Email,
                                  confirmed_at := ct.unix,
                                  opt_out := entry.OptOut }, ?_, ?_⟩
      · unfold GetEmail
        rw [hs', List.filter_append, hfil]
        simp
      · simp [emailEntryFromRow, hct2]
  | true =>
      obtain ⟨r0, hr0, hp0⟩ := List.any_eq_true.mp hany
      have hf : ∀ x : Row, ((fun x => if x.email == entry.Email then
          { x with confirmed_at := ct.unix, opt_out := entry.OptOut } else x)
            x).email = x.email := by
        intro x
        by_cases h : x.email == entry.Email <;> simp [h]
      have hs' : (UpdateEmail s entry).1 = s.map (fun x =>
          if x.email == entry.Email then
            { x with confirmed_at := ct.unix, opt_out := entry.OptOut }
          else x) := by
        unfold UpdateEmail
        rw [hct]
        simp [hany]
      have hmem : r0 ∈ s.filter (fun r => r.email == entry.Email) :=
        List.mem_filter.mpr ⟨hr0, hp0⟩
      cases hfil : s.filter (fun r => r.email == entry.Email) with
      | nil =>
          rw [hfil] at hmem
          cases hmem
      | cons a t =>
          have ha : (a.email == entry.Email) = true := by
            have hin : a ∈ s.filter (fun r => r.email == entry.Email) := by
              rw [hfil]
              exact List.mem_cons_self a t
            exact (List.mem_filter.mp hin).2
          refine ⟨emailEntryFromRow
            { a with confirmed_at := ct.unix, opt_out := entry.OptOut },
            ?_, ?_⟩
          · have ha' : a.email = entry.Email := by simpa using ha
            unfold GetEmail
            rw [hs', filter_email_map s _ hf entry.Email, hfil]
            simp [ha']
          · simp [emailEntryFromRow, hct2]

/-- C8 witness: upserting the fresh whole-second entry `entryNew` into the
demo table and reading it back returns `ConfirmedAt = 1234` seconds. -/
theorem upsert_get_roundtrip_witness :
    (GetEmail (UpdateEmail demoStore entryNew).1 entryNew.Email).1.map
      EmailEntry.ConfirmedAt = some (some ⟨1234, 0⟩) := by
  obtain ⟨e, he, hc⟩ := upsert_get_roundtrip demoStore entryNew ⟨1234, 0⟩ rfl rfl
  rw [he]
  simp [hc]

/-- C10: the row mapper always materialises the stored integer — the 0
sentinel becoming the epoch instant `timeUnix 0` — into a concrete time, so
every entry produced by `emailEntryFromRow`, and hence every entry returned
by `GetEmail` or `GetEmailBatch`, carries a non-nil `ConfirmedAt` pointer. -/
theorem confirmedAt_never_nil :
    (∀ r : Row,
      (emailEntryFromRow r).ConfirmedAt = some (timeUnix r.confirmed_at)) ∧
    (∀ r : Row, r.confirmed_at = 0 →
      (emailEntryFromRow r).ConfirmedAt = some (timeUnix 0)) ∧
    (∀ (s : Store) (email : String) (e : EmailEntry),
      (GetEmail s email).1 = some e → e.ConfirmedAt.isSome = true) ∧
    (∀ (s : Store) (params : GetEmailBatchQueryParams),
      ∀ e ∈ (GetEmailBatch s params).1, e.ConfirmedAt.isSome = true) := by
  refine ⟨fun r => rfl, fun r h => by simp [emailEntryFromRow, h], ?_, ?_⟩
  · intro s email e he
    unfold GetEmail at he
    cases hfil : s.filter (fun r => r.email == email) with
    | nil =>
        rw [hfil] at he
        cases he
    | cons a t =>
        rw [hfil] at he
        simp only [Option.some.injEq] at he
        rw [← he]
        simp [emailEntryFromRow]
  · intro s params e he
    simp only [GetEmailBatch] at he
    rcases List.mem_map.mp he with ⟨r, _, rfl⟩
    simp [emailEntryFromRow]

/-- C10 witness: the entry `GetEmail` returns for "a@x.com" (stored with the
0 sentinel) has a non-nil `ConfirmedAt`. -/
theorem confirmedAt_never_nil_witness :
    (emailEntryFromRow { id := 1, email := "a@x.com", confirmed_at := 0,
                         opt_out := false }).ConfirmedAt.isSome = true :=
  confirmedAt_never_nil.2.2.1 demoStore "a@x.com"
    (emailEntryFromRow { id := 1, email := "a@x.com", confirmed_at := 0,
                         opt_out := false }) (by decide)
